import Mathlib

/-!
Verification of the agent autonomous engine core (`engine.py` and the
recording interface of `database.py`): outcome classification, per-cycle
statistics updates, the chunked interruptible interval wait, scheduler
start/stop, and configuration loading. Each section first embeds the
relevant source functions, then proves the stated properties about them.
-/

namespace AgentEngine

/-- Test whether `needle` occurs at the head of `hay` (character lists). -/
def beginsWith : List Char → List Char → Bool
  | [], _ => true
  | _ :: _, [] => false
  | a :: as, b :: bs => a == b && beginsWith as bs

/-- Substring test on character lists; models Python's `needle in hay`. -/
def hasSubstr (needle : List Char) : List Char → Bool
  | [] => beginsWith needle []
  | b :: bs => beginsWith needle (b :: bs) || hasSubstr needle bs

/-- Python's `str.lower()` applied characterwise to a string. -/
def lowerStr (s : String) : List Char := s.toList.map Char.toLower

/-- Rate-limit test from `AgentRunner._activate_agent` (engine.py line 141):
`"429" in error_str or "rate_limit" in error_str.lower() or "quota" in error_str.lower()`. -/
def isRateLimitError (e : String) : Bool :=
  hasSubstr "429".toList e.toList
    || hasSubstr "rate_limit".toList (lowerStr e)
    || hasSubstr "quota".toList (lowerStr e)

/-- Per-runner mutable state: the run flag `AgentRunner.running` together with the
`AgentRunner.stats` dictionary (`cycles_completed`, `errors`, `last_activation`,
`started_at`). Timestamps are opaque naturals. -/
structure RunnerState where
  running : Bool
  cycles_completed : Nat
  errors : Nat
  last_activation : Option Nat
  started_at : Option Nat
  deriving DecidableEq, Repr

/-- Runner state as built by `AgentRunner.__init__`. -/
def initialRunnerState : RunnerState :=
  { running := false, cycles_completed := 0, errors := 0,
    last_activation := none, started_at := none }

/-- Result of one call into the activation client
(`self.letta.agents.messages.create`): either a response payload or a raised
exception carrying its message text. -/
inductive ActivationResult where
  | success (response : String)
  | failure (detail : String)
  deriving DecidableEq, Repr

/-- Whether an activation attempt returned normally. -/
def ActivationResult.isSuccess : ActivationResult → Bool
  | .success _ => true
  | .failure _ => false

/-- Status tag stored with every activity record: the strings
`"success"` / `"rate_limit"` / `"error"` assigned in `_activate_agent`. -/
inductive CycleStatus where
  | success
  | rate_limit
  | error
  deriving DecidableEq, Repr

/-- Status classification performed by `_activate_agent`: no exception is a
success; an exception whose text matches the rate-limit test is a rate limit;
any other exception is an error. -/
def classify : ActivationResult → CycleStatus
  | .success _ => .success
  | .failure e => if isRateLimitError e then .rate_limit else .error

/-- Arguments handed to `ActivityStorage.store_activity` for one cycle
(the fields of the record the runner asks the recorder to persist). -/
structure ActivityRecord where
  cycle_number : Nat
  status : CycleStatus
  error_message : Option String
  response : Option String
  deriving DecidableEq, Repr

/-- Behavior of the optional activity storage during one cycle:
`noStorage` when `self.activity_storage` is `None`, `storeOk` when
`store_activity` returns normally, `storeFails` when it raises (the
runner catches and logs the exception). -/
inductive RecorderBehavior where
  | noStorage
  | storeOk
  | storeFails
  deriving DecidableEq, Repr

/-- Everything one `_activate_agent` call produces: the updated runner state,
the record handed to the recorder (`none` when no storage is configured), and
the record durably stored (`none` when there is no storage or the store raised). -/
structure CycleResult where
  state : RunnerState
  attempted : Option ActivityRecord
  stored : Option ActivityRecord
  deriving DecidableEq, Repr

/-- Model of `AgentRunner._activate_agent`: on success, `cycles_completed` is
incremented and `last_activation` set; on a rate-limited failure nothing is
incremented; on any other failure `errors` is incremented. The `finally`
block then builds the activity record with `cycle_number` read from the
already-updated `stats["cycles_completed"]` and hands it to the recorder when
storage is configured, swallowing any storage exception. -/
def activateAgent (st : RunnerState) (res : ActivationResult) (now : Nat)
    (recorder : RecorderBehavior) : CycleResult :=
  let st' : RunnerState :=
    match res with
    | .success _ =>
        { st with cycles_completed := st.cycles_completed + 1, last_activation := some now }
    | .failure e =>
        if isRateLimitError e then st else { st with errors := st.errors + 1 }
  let record : ActivityRecord :=
    { cycle_number := st'.cycles_completed
      status := classify res
      error_message := match res with | .success _ => none | .failure e => some e
      response := match res with | .success r => some r | .failure _ => none }
  match recorder with
  | .noStorage => { state := st', attempted := none, stored := none }
  | .storeOk => { state := st', attempted := some record, stored := some record }
  | .storeFails => { state := st', attempted := some record, stored := none }

/-- Runner state right after `AgentRunner.run` has set the run flag and
`started_at`, before the immediate first activation. -/
def startState : RunnerState :=
  { initialRunnerState with running := true, started_at := some 0 }

/-- Runner state after the first `k` activations of the loop in
`AgentRunner.run`: activation number 0 is the immediate one performed before
any wait, and activation number `k` follows the `k`-th full interval wait.
`results k` is what the activation client does on attempt `k`, and `recs k`
what the recorder does. -/
def traceState (results : Nat → ActivationResult) (recs : Nat → RecorderBehavior) :
    Nat → RunnerState
  | 0 => startState
  | k + 1 => (activateAgent (traceState results recs k) (results k) k (recs k)).state

/-- Record handed to the activity storage during activation number `k`. -/
def traceRecord (results : Nat → ActivationResult) (recs : Nat → RecorderBehavior)
    (k : Nat) : Option ActivityRecord :=
  (activateAgent (traceState results recs k) (results k) k (recs k)).attempted

/-- C1: for every single activation attempt, a Success outcome increments
`cycles_completed` by exactly 1 and leaves `errors` unchanged, an Error
outcome increments `errors` by exactly 1 and leaves `cycles_completed`
unchanged, and a RateLimited outcome changes neither counter. -/
theorem counters_per_outcome (st : RunnerState) (res : ActivationResult) (now : Nat)
    (recorder : RecorderBehavior) :
    (activateAgent st res now recorder).state.cycles_completed
        = st.cycles_completed + (if classify res = CycleStatus.success then 1 else 0) ∧
    (activateAgent st res now recorder).state.errors
        = st.errors + (if classify res = CycleStatus.error then 1 else 0) := by
  cases res with
  | success r => cases recorder <;> simp [activateAgent, classify]
  | failure e =>
      by_cases h : isRateLimitError e <;> cases recorder <;>
        simp [activateAgent, classify, h]

/-- Helper: the runner state produced by one activation does not depend on what
the recorder does (counters are updated in the `try`/`except` body, before the
`finally` block that talks to the recorder and swallows its exceptions). -/
theorem activateAgent_state_indep (st : RunnerState) (res : ActivationResult) (now : Nat)
    (r1 r2 : RecorderBehavior) :
    (activateAgent st res now r1).state = (activateAgent st res now r2).state := by
  cases r1 <;> cases r2 <;> rfl

/-- Helper: a cycle that always fails with the message "429 rate limit" leaves the
runner state exactly at its pre-loop value, for any number of attempts. -/
theorem traceState_const429 (recs : Nat → RecorderBehavior) (n : Nat) :
    traceState (fun _ => ActivationResult.failure "429 rate limit") recs n = startState := by
  induction n with
  | zero => rfl
  | succ k ih =>
      have hrl : isRateLimitError "429 rate limit" = true := by decide
      cases h : recs k <;>
        simp [traceState, ih, activateAgent, hrl, h]

/-- C2: a failure is classified RateLimited exactly when its message contains
"429", or contains "rate_limit" or "quota" after lowercasing; every other
failure is classified Error and bumps the error counter. In particular, when
every activation fails with "429 rate limit", after any number N of attempts
both counters are still 0 and every record handed to the recorder is tagged
rate_limit. -/
theorem rate_limit_classification :
    (∀ (st : RunnerState) (now : Nat) (recorder : RecorderBehavior) (e : String),
      (isRateLimitError e = true →
          classify (ActivationResult.failure e) = CycleStatus.rate_limit ∧
          (activateAgent st (ActivationResult.failure e) now recorder).state = st) ∧
      (isRateLimitError e = false →
          classify (ActivationResult.failure e) = CycleStatus.error ∧
          (activateAgent st (ActivationResult.failure e) now recorder).state
            = { st with errors := st.errors + 1 })) ∧
    (∀ N : Nat,
      (traceState (fun _ => ActivationResult.failure "429 rate limit")
          (fun _ => RecorderBehavior.storeOk) N).errors = 0 ∧
      (traceState (fun _ => ActivationResult.failure "429 rate limit")
          (fun _ => RecorderBehavior.storeOk) N).cycles_completed = 0 ∧
      (∀ j, j < N →
        (traceRecord (fun _ => ActivationResult.failure "429 rate limit")
            (fun _ => RecorderBehavior.storeOk) j).map ActivityRecord.status
          = some CycleStatus.rate_limit)) := by
  constructor
  · intro st now recorder e
    constructor
    · intro h
      constructor
      · simp [classify, h]
      · cases recorder <;> simp [activateAgent, h]
    · intro h
      constructor
      · simp [classify, h]
      · cases recorder <;> simp [activateAgent, h]
  · intro N
    have hrl : isRateLimitError "429 rate limit" = true := by decide
    refine ⟨?_, ?_, ?_⟩
    · rw [traceState_const429]; rfl
    · rw [traceState_const429]; rfl
    · intro j _
      simp [traceRecord, traceState_const429, activateAgent, classify, hrl]

/-- C2 witness: concrete instantiation at the message "429 rate limit" and at
N = 5 attempts. -/
theorem rate_limit_classification_witness :
    (classify (ActivationResult.failure "429 rate limit") = CycleStatus.rate_limit ∧
      (activateAgent initialRunnerState (ActivationResult.failure "429 rate limit") 0
          RecorderBehavior.storeOk).state = initialRunnerState) ∧
    (traceState (fun _ => ActivationResult.failure "429 rate limit")
        (fun _ => RecorderBehavior.storeOk) 5).errors = 0 ∧
    (traceRecord (fun _ => ActivationResult.failure "429 rate limit")
        (fun _ => RecorderBehavior.storeOk) 2).map ActivityRecord.status
      = some CycleStatus.rate_limit :=
  ⟨(rate_limit_classification.1 initialRunnerState 0 RecorderBehavior.storeOk
      "429 rate limit").1 (by decide),
   (rate_limit_classification.2 5).1,
   (rate_limit_classification.2 5).2.2 2 (by decide)⟩

/-- C3: every cycle, whatever its classification, hands its outcome to the
recorder whenever storage is configured, and a recorder failure is swallowed:
the runner state after the cycle is the same as for an identical cycle in
which recording succeeds, and the whole state trajectory of the timing loop
is unchanged by recorder behavior. -/
theorem recorder_failure_swallowed :
    (∀ (st : RunnerState) (res : ActivationResult) (now : Nat)
        (recorder : RecorderBehavior),
      (activateAgent st res now recorder).state
        = (activateAgent st res now RecorderBehavior.storeOk).state ∧
      (recorder ≠ RecorderBehavior.noStorage →
        (activateAgent st res now recorder).attempted.isSome = true)) ∧
    (∀ (results : Nat → ActivationResult) (recs recs2 : Nat → RecorderBehavior) (k : Nat),
      traceState results recs k = traceState results recs2 k) := by
  constructor
  · intro st res now recorder
    constructor
    · exact activateAgent_state_indep st res now recorder RecorderBehavior.storeOk
    · intro h
      cases recorder with
      | noStorage => exact absurd rfl h
      | storeOk => rfl
      | storeFails => rfl
  · intro results recs recs2 k
    induction k with
    | zero => rfl
    | succ n ih =>
        simp only [traceState, ih]
        exact activateAgent_state_indep _ _ _ _ _

/-- C3 witness: a failing store on a concrete successful cycle leaves the state
equal to the store-succeeds run, and the record was still handed over. -/
theorem recorder_failure_swallowed_witness :
    ((activateAgent initialRunnerState (ActivationResult.success "ok") 0
        RecorderBehavior.storeFails).state
      = (activateAgent initialRunnerState (ActivationResult.success "ok") 0
          RecorderBehavior.storeOk).state) ∧
    (activateAgent initialRunnerState (ActivationResult.success "ok") 0
        RecorderBehavior.storeFails).attempted.isSome = true :=
  ⟨(recorder_failure_swallowed.1 initialRunnerState (ActivationResult.success "ok") 0
      RecorderBehavior.storeFails).1,
   (recorder_failure_swallowed.1 initialRunnerState (ActivationResult.success "ok") 0
      RecorderBehavior.storeFails).2 (by decide)⟩

/-- Cycles and errors columns of one row of the status table printed by
`AgentAutonomousEngine.print_status` (the status snapshot read from
`runner.stats`). -/
def statusRow (st : RunnerState) : Nat × Nat := (st.cycles_completed, st.errors)

/-- C4: `run` performs the first activation immediately (activation 0 happens
before any wait) and then one activation per configured interval; with
always-successful activations the counter after `k` activations is `k` with
no errors. With interval = 1 time unit, by ~3.5 time units the activations
numbered 0, 1, 2, 3 have run (times 0, 1, 2, 3), so the status snapshot
shows cycles_completed = 4 and error_count = 0. -/
theorem immediate_then_per_interval (results : Nat → ActivationResult)
    (recs : Nat → RecorderBehavior) (h : ∀ i, (results i).isSuccess = true) :
    (∀ k, (traceState results recs k).cycles_completed = k ∧
        (traceState results recs k).errors = 0) ∧
    statusRow (traceState results recs 4) = (4, 0) := by
  have main : ∀ k, (traceState results recs k).cycles_completed = k ∧
      (traceState results recs k).errors = 0 := by
    intro k
    induction k with
    | zero => exact ⟨rfl, rfl⟩
    | succ n ih =>
        cases hres : results n with
        | success r =>
            cases hrec : recs n <;>
              simp [traceState, activateAgent, hres, hrec, ih.1, ih.2]
        | failure e =>
            have := h n
            rw [hres] at this
            simp [ActivationResult.isSuccess] at this
  refine ⟨main, ?_⟩
  simp [statusRow, (main 4).1, (main 4).2]

/-- C4 witness: concrete always-successful activation stream, snapshot after
the immediate cycle plus three interval-triggered cycles. -/
theorem immediate_then_per_interval_witness :
    statusRow (traceState (fun _ => ActivationResult.success "ok")
        (fun _ => RecorderBehavior.storeOk) 4) = (4, 0) :=
  (immediate_then_per_interval (fun _ => ActivationResult.success "ok")
      (fun _ => RecorderBehavior.storeOk) (fun _ => rfl)).2

/-- Seconds of one full interval wait: `sleep_seconds = cycle_interval_minutes * 60`
at the top of the loop in `AgentRunner.run`. -/
def sleepSeconds (cycle_interval_minutes : Nat) : Nat := cycle_interval_minutes * 60

/-- Flag-poll period of the chunked wait, in milliseconds: the source sets
`chunk_size = 1.0` seconds ("Check every second"). -/
def chunkMs : Nat := 1000

/-- Whether the run flag is still set at time `t` (milliseconds measured from
the start of the wait), when `stopAt` is the time `stop()` clears the flag
(`none` when no stop is requested). -/
def runningAt (stopAt : Option Nat) (t : Nat) : Bool :=
  match stopAt with
  | none => true
  | some s => decide (t < s)

/-- Chunked wait loop of `AgentRunner.run`: before each one-chunk sleep the
run flag is checked and the loop breaks if it is cleared; `t` is the current
time and `k` the number of chunks still to sleep
(`int(sleep_seconds / chunk_size)` initially). Returns the time at which the
loop is exited. -/
def waitLoopMs (stopAt : Option Nat) : Nat → Nat → Nat
  | t, 0 => t
  | t, k + 1 => if runningAt stopAt t then waitLoopMs stopAt (t + chunkMs) k else t

/-- Time (ms from the start of the wait) at which the interval wait of
`AgentRunner.run` is exited. -/
def waitExitMs (cycle_interval_minutes : Nat) (stopAt : Option Nat) : Nat :=
  waitLoopMs stopAt 0 (sleepSeconds cycle_interval_minutes)

/-- Helper: once the stop time has been requested, the wait loop exits no
later than one poll chunk after the stop time. -/
theorem waitLoopMs_le_stop (s : Nat) : ∀ (k t : Nat), t ≤ s + chunkMs →
    waitLoopMs (some s) t k ≤ s + chunkMs := by
  intro k
  induction k with
  | zero => intro t ht; exact ht
  | succ n ih =>
      intro t ht
      by_cases h : t < s
      · have : t + chunkMs ≤ s + chunkMs := by omega
        simpa [waitLoopMs, runningAt, h] using ih (t + chunkMs) this
      · simpa [waitLoopMs, runningAt, h] using ht

/-- Helper: the wait loop never runs past the end of the full interval. -/
theorem waitLoopMs_le_total (stopAt : Option Nat) : ∀ (k t : Nat),
    waitLoopMs stopAt t k ≤ t + chunkMs * k := by
  intro k
  induction k with
  | zero => intro t; exact Nat.le_refl t
  | succ n ih =>
      intro t
      by_cases h : runningAt stopAt t = true
      · calc waitLoopMs stopAt t (n + 1) = waitLoopMs stopAt (t + chunkMs) n := by
              simp [waitLoopMs, h]
          _ ≤ t + chunkMs + chunkMs * n := ih _
          _ = t + chunkMs * (n + 1) := by ring
      · simp only [waitLoopMs, h, if_false]
        exact Nat.le_add_right _ _

/-- C5 counterexample: the poll period of the interval wait is a full second
(1000 ms), not sub-second, and a stop requested 1 ms into a one-minute wait
is noticed only at the 1000 ms chunk boundary — a notice delay of one full
poll period less one millisecond, so no sub-second poll period bounds it. -/
theorem stop_poll_not_subsecond :
    ¬ (chunkMs < 1000) ∧ waitExitMs 1 (some 1) = 1000 := by
  constructor
  · decide
  · decide

/-- C5 (amended): when `stop()` clears the run flag at time `s` during the
interval wait, the runner exits the wait within one-second polling
granularity: the exit happens no later than `s` plus the one-second poll
chunk, never later than the full interval, and strictly before the full
interval has elapsed whenever the stop leaves at least one chunk to spare. -/
theorem stop_interrupts_wait (m s : Nat) :
    waitExitMs m (some s) ≤ s + chunkMs ∧
    waitExitMs m (some s) ≤ chunkMs * sleepSeconds m ∧
    (s + chunkMs < chunkMs * sleepSeconds m →
      waitExitMs m (some s) < chunkMs * sleepSeconds m) := by
  refine ⟨waitLoopMs_le_stop s (sleepSeconds m) 0 (Nat.zero_le _), ?_, ?_⟩
  · simpa using waitLoopMs_le_total (some s) (sleepSeconds m) 0
  · intro h
    exact lt_of_le_of_lt (waitLoopMs_le_stop s (sleepSeconds m) 0 (Nat.zero_le _)) h

/-- C5 witness: one-minute interval, stop requested 1 ms into the wait. -/
theorem stop_interrupts_wait_witness :
    waitExitMs 1 (some 1) ≤ 1 + chunkMs ∧
    waitExitMs 1 (some 1) ≤ chunkMs * sleepSeconds 1 ∧
    waitExitMs 1 (some 1) < chunkMs * sleepSeconds 1 :=
  ⟨(stop_interrupts_wait 1 1).1, (stop_interrupts_wait 1 1).2.1,
   (stop_interrupts_wait 1 1).2.2 (by decide)⟩

/-- Per-agent configuration (`AgentConfig` in `engine.py`). -/
structure AgentConfig where
  name : String
  agent_id : String
  cycle_interval_minutes : Nat
  activation_instruction : String
  enabled : Bool
  deriving DecidableEq, Repr

/-- Engine configuration (`EngineConfig` in `engine.py`). -/
structure EngineConfig where
  letta_api_key : String
  letta_base_url : String
  letta_timeout : Nat
  agents : List AgentConfig
  deriving DecidableEq, Repr

/-- Scheduler state: the engine run flag and the registry of owned runners
keyed by agent identifier (`AgentAutonomousEngine.running` and
`agent_runners`). -/
structure EngineState where
  running : Bool
  agent_runners : List (String × RunnerState)
  deriving DecidableEq, Repr

/-- Scheduler state as built by `AgentAutonomousEngine.__init__`. -/
def engineInit : EngineState := { running := false, agent_runners := [] }

/-- Selection test from `AgentAutonomousEngine.start`:
`a.enabled and (not agent_ids or a.agent_id in agent_ids)`. Python truthiness
makes `not agent_ids` true both when the argument is `None` and when it is
the empty list. -/
def selectedAgent (agent_ids : Option (List String)) (a : AgentConfig) : Bool :=
  a.enabled && (match agent_ids with
    | none => true
    | some l => l.isEmpty || l.contains a.agent_id)

/-- Agents chosen by `AgentAutonomousEngine.start` (`agents_to_run`). -/
def agentsToRun (cfg : EngineConfig) (agent_ids : Option (List String)) :
    List AgentConfig :=
  cfg.agents.filter (selectedAgent agent_ids)

/-- Model of `AgentAutonomousEngine.start`: when no agent is selected it
prints a message and returns with nothing changed; otherwise it sets the run
flag and registers one fresh runner per selected agent. -/
def engineStart (cfg : EngineConfig) (agent_ids : Option (List String))
    (st : EngineState) : EngineState :=
  if (agentsToRun cfg agent_ids).isEmpty then st
  else
    { running := true,
      agent_runners :=
        st.agent_runners ++ (agentsToRun cfg agent_ids).map
          (fun a => (a.agent_id, initialRunnerState)) }

/-- Model of `AgentAutonomousEngine.stop`: clears the engine run flag and
every owned runner's run flag. -/
def engineStop (st : EngineState) : EngineState :=
  { running := false,
    agent_runners :=
      st.agent_runners.map (fun p => (p.1, { p.2 with running := false })) }

/-- C8: `stop()` is idempotent — a second call produces exactly the same
scheduler state and the same state for every owned runner, and (being a total
function of the state) raises nothing. -/
theorem stop_idempotent (st : EngineState) :
    engineStop (engineStop st) = engineStop st := by
  simp only [engineStop, List.map_map, EngineState.mk.injEq, true_and]
  apply List.map_congr_left
  intro p _
  rfl

/-- Example configuration with one enabled agent, identifier "a1". -/
def cfgEx : EngineConfig :=
  { letta_api_key := "key", letta_base_url := "", letta_timeout := 600,
    agents := [{ name := "agent one", agent_id := "a1", cycle_interval_minutes := 15,
                 activation_instruction := "act", enabled := true }] }

/-- Helper: with an empty selection, `start` leaves the scheduler state
unchanged. -/
theorem engineStart_of_no_agents (cfg : EngineConfig) (agent_ids : Option (List String))
    (st : EngineState) (h : agentsToRun cfg agent_ids = []) :
    engineStart cfg agent_ids st = st := by
  unfold engineStart
  rw [h]
  rfl

/-- C7: when the selected set is empty, `start()` changes nothing and raises
nothing; in particular a requested subset matching no configured agent leaves
the runner registry empty. -/
theorem start_empty_noop :
    (∀ (cfg : EngineConfig) (agent_ids : Option (List String)) (st : EngineState),
      agentsToRun cfg agent_ids = [] → engineStart cfg agent_ids st = st) ∧
    (∀ (cfg : EngineConfig) (l : List String),
      (∀ a ∈ cfg.agents, a.agent_id ∉ l) → l ≠ [] →
        (engineStart cfg (some l) engineInit).agent_runners = []) := by
  constructor
  · exact engineStart_of_no_agents
  · intro cfg l hnone hne
    have hsel : agentsToRun cfg (some l) = [] := by
      rw [agentsToRun, List.filter_eq_nil_iff]
      intro a ha hsel
      simp only [selectedAgent, Bool.and_eq_true, Bool.or_eq_true] at hsel
      rcases hsel.2 with hemp | hcon
      · exact hne (List.isEmpty_iff.mp hemp)
      · exact hnone a ha (List.elem_iff.mp hcon)
    rw [engineStart_of_no_agents cfg (some l) engineInit hsel]
    rfl

/-- C7 witness: subset ["zzz"] matches no agent of the example configuration,
so no runner is started. -/
theorem start_empty_noop_witness :
    (engineStart cfgEx (some ["zzz"]) engineInit).agent_runners = [] :=
  start_empty_noop.2 cfgEx ["zzz"] (by decide) (by decide)

/-- C6 counterexample: calling `start` with the subset given as the empty list
creates a runner for the enabled agent "a1" even though "a1" is not a member
of that subset — Python's `not agent_ids` treats an empty subset list like no
subset at all, so the claim as stated fails at this input. -/
theorem subset_empty_counterexample :
    (engineStart cfgEx (some []) engineInit).agent_runners.map Prod.fst = ["a1"] ∧
    ¬ ("a1" ∈ ([] : List String)) := by
  exact ⟨by decide, by decide⟩

/-- Helper: the selection test holds exactly when the agent is enabled and,
whenever a non-empty subset was requested, its identifier is in the subset. -/
theorem selectedAgent_iff (agent_ids : Option (List String)) (a : AgentConfig) :
    selectedAgent agent_ids a = true ↔
      (a.enabled = true ∧ ∀ l, agent_ids = some l → l ≠ [] → a.agent_id ∈ l) := by
  cases agent_ids with
  | none => simp [selectedAgent]
  | some l =>
      cases l with
      | nil =>
          simp only [selectedAgent, List.isEmpty_nil, Bool.true_or, Bool.and_true,
            Option.some.injEq]
          constructor
          · intro hen
            refine ⟨hen, ?_⟩
            intro l hl hlne
            exact absurd hl.symm hlne
          · rintro ⟨hen, _⟩
            exact hen
      | cons b bs =>
          simp only [selectedAgent, Bool.and_eq_true, List.isEmpty_cons, Bool.false_or,
            Option.some.injEq]
          constructor
          · rintro ⟨hen, h⟩
            refine ⟨hen, ?_⟩
            intro l hl _
            rw [← hl]
            exact List.elem_iff.mp h
          · rintro ⟨hen, h⟩
            exact ⟨hen, List.elem_iff.mpr (h (b :: bs) rfl (by simp))⟩

/-- C6 (amended): starting from a fresh scheduler, the runner registry gains an
entry for identifier `x` exactly when some configured agent has identifier
`x`, is enabled and, whenever a *non-empty* subset was requested, `x` is in
that subset (an empty subset list behaves like no subset at all); in
particular an agent with `enabled = false` is never selected. -/
theorem start_selection_characterization :
    (∀ (cfg : EngineConfig) (agent_ids : Option (List String)) (x : String),
      (∃ p ∈ (engineStart cfg agent_ids engineInit).agent_runners, p.1 = x) ↔
      (∃ a ∈ cfg.agents, a.agent_id = x ∧ a.enabled = true ∧
        ∀ l, agent_ids = some l → l ≠ [] → x ∈ l)) ∧
    (∀ (cfg : EngineConfig) (agent_ids : Option (List String)) (a : AgentConfig),
      a.enabled = false → a ∉ agentsToRun cfg agent_ids) := by
  constructor
  · intro cfg agent_ids x
    have key : (∃ a ∈ agentsToRun cfg agent_ids, a.agent_id = x) ↔
        (∃ a ∈ cfg.agents, a.agent_id = x ∧ a.enabled = true ∧
          ∀ l, agent_ids = some l → l ≠ [] → x ∈ l) := by
      constructor
      · rintro ⟨a, ha, hx⟩
        rw [agentsToRun, List.mem_filter] at ha
        have := (selectedAgent_iff agent_ids a).mp ha.2
        exact ⟨a, ha.1, hx, this.1, by rw [← hx]; exact this.2⟩
      · rintro ⟨a, ha, hx, hen, hsub⟩
        refine ⟨a, ?_, hx⟩
        rw [agentsToRun, List.mem_filter]
        exact ⟨ha, (selectedAgent_iff agent_ids a).mpr ⟨hen, by rw [hx]; exact hsub⟩⟩
    rw [← key]
    rcases hE : agentsToRun cfg agent_ids with _ | ⟨a0, rest⟩
    · rw [engineStart_of_no_agents cfg agent_ids engineInit hE]
      simp [engineInit]
    · have hreg : (engineStart cfg agent_ids engineInit).agent_runners
          = (a0 :: rest).map (fun a => (a.agent_id, initialRunnerState)) := by
        unfold engineStart
        rw [hE]
        rfl
      rw [hreg]
      constructor
      · rintro ⟨p, hp, hx⟩
        rw [List.mem_map] at hp
        rcases hp with ⟨a, ha, hpa⟩
        refine ⟨a, ha, ?_⟩
        rw [← hpa] at hx
        exact hx
      · rintro ⟨a, ha, hx⟩
        exact ⟨(a.agent_id, initialRunnerState), List.mem_map.mpr ⟨a, ha, rfl⟩, hx⟩
  · intro cfg agent_ids a hdis hmem
    rw [agentsToRun, List.mem_filter] at hmem
    have := ((selectedAgent_iff agent_ids a).mp hmem.2).1
    rw [hdis] at this
    exact Bool.false_ne_true this

/-- Example disabled agent and a configuration containing it. -/
def agentDisabled : AgentConfig :=
  { name := "agent two", agent_id := "a2", cycle_interval_minutes := 15,
    activation_instruction := "act", enabled := false }

/-- Example configuration holding one enabled and one disabled agent. -/
def cfgEx2 : EngineConfig := { cfgEx with agents := cfgEx.agents ++ [agentDisabled] }

/-- C6 witness: the disabled agent "a2" is never selected. -/
theorem start_selection_characterization_witness :
    agentDisabled ∉ agentsToRun cfgEx2 none :=
  start_selection_characterization.2 cfgEx2 none agentDisabled rfl

/-- One agent's raw mapping from the YAML configuration file; `none` models an
absent key, mirroring `agent_dict.get(...)` in `load_config`. -/
structure AgentDict where
  name : Option String
  agent_id : Option String
  cycle_interval_minutes : Option Nat
  interval_minutes : Option Nat
  activation_instruction : Option String
  prompt : Option String
  enabled : Option Bool
  deriving DecidableEq, Repr

/-- Per-agent part of `load_config`:
`cycle_interval_minutes` falls back to `interval_minutes` then to 15, and
`activation_instruction` falls back to `prompt` then to the default text. -/
def parseAgent (d : AgentDict) : AgentConfig :=
  { name := d.name.getD ""
    agent_id := d.agent_id.getD ""
    cycle_interval_minutes := d.cycle_interval_minutes.getD (d.interval_minutes.getD 15)
    activation_instruction :=
      d.activation_instruction.getD (d.prompt.getD "What should you do now?")
    enabled := d.enabled.getD true }

/-- Agent list built by `load_config`: entries whose identifier resolves to the
empty string are dropped with a warning. -/
def loadAgents (ds : List AgentDict) : List AgentConfig :=
  (ds.map parseAgent).filter (fun a => a.agent_id != "")

/-- C9: `load_config` accepts both spellings for the interval field
(`cycle_interval_minutes` preferred over `interval_minutes`) and for the
instruction field (`activation_instruction` preferred over `prompt`): the
preferred name wins whenever it is present — in particular when both are
present — and the historical name is used when the preferred one is absent. -/
theorem config_field_spellings (d : AgentDict) :
    (∀ v, d.cycle_interval_minutes = some v →
        (parseAgent d).cycle_interval_minutes = v) ∧
    (∀ v, d.cycle_interval_minutes = none → d.interval_minutes = some v →
        (parseAgent d).cycle_interval_minutes = v) ∧
    (∀ s, d.activation_instruction = some s →
        (parseAgent d).activation_instruction = s) ∧
    (∀ s, d.activation_instruction = none → d.prompt = some s →
        (parseAgent d).activation_instruction = s) := by
  refine ⟨?_, ?_, ?_, ?_⟩
  · intro v h
    simp [parseAgent, h]
  · intro v h1 h2
    simp [parseAgent, h1, h2]
  · intro s h
    simp [parseAgent, h]
  · intro s h1 h2
    simp [parseAgent, h1, h2]

/-- Raw agent mapping carrying both spellings of both fields. -/
def dictEx : AgentDict :=
  { name := some "agent one", agent_id := some "a1",
    cycle_interval_minutes := some 5, interval_minutes := some 9,
    activation_instruction := some "new text", prompt := some "old text",
    enabled := none }

/-- C9 witness: with both spellings present, the preferred names win. -/
theorem config_field_spellings_witness :
    (parseAgent dictEx).cycle_interval_minutes = 5 ∧
    (parseAgent dictEx).activation_instruction = "new text" :=
  ⟨(config_field_spellings dictEx).1 5 rfl,
   (config_field_spellings dictEx).2.2.1 "new text" rfl⟩

/-- Number of successful activations among the first `n` attempts. -/
def successCount (results : Nat → ActivationResult) : Nat → Nat
  | 0 => 0
  | n + 1 => successCount results n + (if (results n).isSuccess then 1 else 0)

/-- Helper: along any run, `cycles_completed` equals the number of successful
activations so far. -/
theorem traceState_cycles (results : Nat → ActivationResult)
    (recs : Nat → RecorderBehavior) : ∀ n,
    (traceState results recs n).cycles_completed = successCount results n := by
  intro n
  induction n with
  | zero => rfl
  | succ k ih =>
      cases hres : results k with
      | success r =>
          cases hrec : recs k <;>
            simp [traceState, successCount, activateAgent, hres, hrec, ih,
              ActivationResult.isSuccess]
      | failure e =>
          by_cases hrl : isRateLimitError e <;> cases hrec : recs k <;>
            simp [traceState, successCount, activateAgent, hres, hrec, hrl, ih,
              ActivationResult.isSuccess]

/-- C10: every record handed to the recorder carries `cycle_number` equal to
the runner's `cycles_completed` right after classification, which is the
number of successful activations so far; hence a record for a RateLimited or
Error outcome carries the cycle number of the most recent Success (0 when
none has occurred), and consecutive non-success cycles produce records with
the same cycle number. -/
theorem record_cycle_number (results : Nat → ActivationResult)
    (recs : Nat → RecorderBehavior) :
    (∀ k r, traceRecord results recs k = some r →
        r.cycle_number = (traceState results recs (k + 1)).cycles_completed ∧
        r.cycle_number = successCount results (k + 1)) ∧
    (∀ k, (results k).isSuccess = false →
        successCount results (k + 1) = successCount results k) ∧
    (∀ k r s, traceRecord results recs k = some r →
        traceRecord results recs (k + 1) = some s →
        (results k).isSuccess = false → (results (k + 1)).isSuccess = false →
        r.cycle_number = s.cycle_number) := by
  have attempted_cycle : ∀ k r, traceRecord results recs k = some r →
      r.cycle_number = (traceState results recs (k + 1)).cycles_completed := by
    intro k r hr
    rw [traceRecord] at hr
    cases hrec : recs k <;> rw [hrec] at hr
    · exact absurd hr (by simp [activateAgent])
    · cases hres : results k <;> rw [hres] at hr <;>
        simp only [activateAgent, Option.some.injEq] at hr <;>
        simp [traceState, activateAgent, hres, hrec, ← hr]
    · cases hres : results k <;> rw [hres] at hr <;>
        simp only [activateAgent, Option.some.injEq] at hr <;>
        simp [traceState, activateAgent, hres, hrec, ← hr]
  have count_frozen : ∀ k, (results k).isSuccess = false →
      successCount results (k + 1) = successCount results k := by
    intro k h
    simp [successCount, h]
  refine ⟨?_, count_frozen, ?_⟩
  · intro k r hr
    exact ⟨attempted_cycle k r hr, by
      rw [attempted_cycle k r hr]
      exact traceState_cycles results recs (k + 1)⟩
  · intro k r s hr hs hk hk1
    have h1 : r.cycle_number = successCount results (k + 1) := by
      rw [attempted_cycle k r hr]
      exact traceState_cycles results recs (k + 1)
    have h2 : s.cycle_number = successCount results (k + 2) := by
      rw [attempted_cycle (k + 1) s hs]
      exact traceState_cycles results recs (k + 2)
    rw [h1, h2, count_frozen (k + 1) hk1]

/-- Record handed to the recorder by the first attempt of an always-failing
run with message "boom". -/
def rec0 : ActivityRecord :=
  { cycle_number := 0, status := CycleStatus.error,
    error_message := some "boom", response := none }

/-- C10 witness: on an always-failing run, the first record's cycle number is
the success count so far (0, no success yet) and the counter after the cycle. -/
theorem record_cycle_number_witness :
    rec0.cycle_number = (traceState (fun _ => ActivationResult.failure "boom")
        (fun _ => RecorderBehavior.storeOk) 1).cycles_completed ∧
    rec0.cycle_number = successCount (fun _ => ActivationResult.failure "boom") 1 :=
  (record_cycle_number (fun _ => ActivationResult.failure "boom")
      (fun _ => RecorderBehavior.storeOk)).1 0 rec0 (by decide)

end AgentEngine
